import Mathlib

set_option maxRecDepth 10000

/-!
Shallow embedding of the QR-code service implemented by the Flask application
embedded in src/5_Contact.py (the "app (1).py" variant): the Code Registry
(slug generation, creation, lookup), the Payload Resolver (code_target), the
Scan Recorder (log_scan) and the scan/download routes.  Machine-level details
delegated to third parties (SQLAlchemy persistence, JSON text serialisation,
the qrcode/Pillow pixel encoders, Flask request plumbing) are represented by
explicit data: the database is a list of rows, json.dumps/json.loads are
mutually inverse on the stored values and are elided, random tokens from
secrets.token_hex are passed in as explicit arguments, and image encodings are
values tagged with the encoder format that produced them.
-/

namespace OnePlaceQR

/-- Python values stored in QRCode.data_json: the payloads built by
payload_for contain only strings, None, lists and string-keyed dicts. -/
inductive Json where
  | null : Json
  | str : String → Json
  | arr : List Json → Json
  | obj : List (String × Json) → Json

mutual

/-- Python repr() of a stored value (string escaping inside repr is elided;
only strings and None are ever rendered by the code paths modelled here). -/
def Json.pyRepr : Json → String
  | .null => "None"
  | .str s => "\x27" ++ s ++ "\x27"
  | .arr xs => "[" ++ pyReprElems xs ++ "]"
  | .obj kvs => "\x7b" ++ pyReprPairs kvs ++ "\x7d"

/-- Comma-separated repr of list elements. -/
def pyReprElems : List Json → String
  | [] => ""
  | j :: rest => Json.pyRepr j ++ (if rest.isEmpty then "" else ", ") ++ pyReprElems rest

/-- Comma-separated repr of dict entries. -/
def pyReprPairs : List (String × Json) → String
  | [] => ""
  | (k, v) :: rest =>
    "\x27" ++ k ++ "\x27: " ++ Json.pyRepr v ++ (if rest.isEmpty then "" else ", ") ++
      pyReprPairs rest

end

/-- Python str() of a stored value: a string renders as itself, anything else
as its repr (str(None) = "None"). -/
def Json.pyStr (j : Json) : String :=
  match j with
  | .str s => s
  | _ => j.pyRepr

/-- Python dict.get(k, d) on a stored payload: the stored value when the key
is present (even if that value is None), otherwise the default.  Payloads
built by payload_for are always dicts, so the non-dict case (where Python
would raise AttributeError) is unreachable and returns the default. -/
def Json.getD (j : Json) (k : String) (d : Json) : Json :=
  match j with
  | .obj kvs =>
    match kvs.find? (fun kv => kv.1 == k) with
    | some kv => kv.2
    | none => d
  | _ => d

/-- Python truthiness of a stored value: None is falsy, strings/lists/dicts
are truthy exactly when non-empty. -/
def Json.truthy : Json → Bool
  | .null => false
  | .str s => !s.isEmpty
  | .arr xs => !xs.isEmpty
  | .obj kvs => !kvs.isEmpty

/-- Python `a or b` on stored values. -/
def pyOr (a b : Json) : Json :=
  if a.truthy then a else b

/-- Python `a or b` on strings (the empty string is falsy). -/
def pyOrStr (a b : String) : String :=
  if a.isEmpty then b else a

/-- Python `a or b` on optional strings (None and "" are falsy). -/
def pyOrOpt (a b : Option String) : Option String :=
  match a with
  | some s => if s.isEmpty then b else some s
  | none => b

/-- Python str.lower() restricted to ASCII (models fmt.lower() and the
.lower() inside _safe_ext). -/
def pyLower (s : String) : String :=
  String.mk (s.data.map Char.toLower)

/-- Python str.startswith(prefix). -/
def pyStartswith (s pre : String) : Bool :=
  pre.data.isPrefixOf s.data

/-- ASCII whitespace stripped by Python str.strip(). -/
def isPyWs (c : Char) : Bool :=
  c = ' ' ∨ c = '\t' ∨ c = '\n' ∨ c = '\r'

/-- Python str.strip(): drop whitespace from both ends. -/
def pyStrip (s : String) : String :=
  String.mk (((s.data.dropWhile isPyWs).reverse.dropWhile isPyWs).reverse)

/-- Model of _safe_ext: os.path.splitext(fn)[1].lower().replace(".", "") — the
lower-cased extension after the last dot, where leading dots of the name do
not start an extension (os.path.splitext ignores them). -/
def safeExt (fn : String) : String :=
  let cs := fn.data.dropWhile (fun c => c == '.')
  if cs.contains '.' then
    String.mk (((cs.reverse.takeWhile (fun c => c != '.')).reverse).map Char.toLower)
  else ""

/-- Split a character list into maximal runs of non-separator characters,
dropping the separators; acc accumulates the current run in reverse. -/
def splitWordsAux : List Char → List Char → List (List Char)
  | [], acc => if acc.isEmpty then [] else [acc.reverse]
  | c :: cs, acc =>
    if c = ' ' then
      if acc.isEmpty then splitWordsAux cs [] else acc.reverse :: splitWordsAux cs []
    else splitWordsAux cs (c :: acc)

/-- Model of python-slugify's slugify restricted to ASCII input: alphanumeric
characters are lower-cased, every other character becomes a separator, runs of
separators collapse to a single "-", and leading/trailing separators vanish.
(Unicode transliteration, which the real library also performs, is out of
scope: the claims quantify over ASCII names.) -/
def slugify (s : String) : String :=
  let mapped := s.data.map (fun c => if c.isAlphanum then c.toLower else ' ')
  String.intercalate "-" ((splitWordsAux mapped []).map String.mk)

/-! Decimal printing of naturals (Nat.repr, which models Python's f-string
rendering of the loop counter) is injective.  Proved by parsing the digit
string back: no library lemma exists for this. -/

/-- Numeric value of a decimal digit character. -/
def digitVal (c : Char) : Nat := c.toNat - 48

/-- Parse a list of decimal digit characters, most significant first. -/
def parseNum (cs : List Char) : Nat :=
  cs.foldl (fun a c => 10 * a + digitVal c) 0

theorem parseNum_concat (l : List Char) (c : Char) :
    parseNum (l ++ [c]) = 10 * parseNum l + digitVal c := by
  simp [parseNum, List.foldl_append]

theorem digitVal_digitChar (m : Nat) (h : m < 10) :
    digitVal (Nat.digitChar m) = m := by
  interval_cases m <;> rfl

theorem toDigitsCore_acc (b : Nat) :
    ∀ (f n : Nat) (ds : List Char),
      Nat.toDigitsCore b f n ds = Nat.toDigitsCore b f n [] ++ ds := by
  intro f
  induction f with
  | zero => intro n ds; rfl
  | succ f ih =>
    intro n ds
    simp only [Nat.toDigitsCore]
    by_cases h : n / b = 0
    · simp [h]
    · simp only [h, if_false]
      rw [ih (n / b) (Nat.digitChar (n % b) :: ds), ih (n / b) [Nat.digitChar (n % b)]]
      simp

theorem parseNum_toDigitsCore :
    ∀ (f n : Nat), n < 10 ^ f → parseNum (Nat.toDigitsCore 10 f n []) = n := by
  intro f
  induction f with
  | zero =>
    intro n h
    interval_cases n
    rfl
  | succ f ih =>
    intro n h
    simp only [Nat.toDigitsCore]
    by_cases h0 : n / 10 = 0
    · have hn : n < 10 := by omega
      have hmod : n % 10 = n := Nat.mod_eq_of_lt hn
      simp [h0, parseNum, hmod]
      exact digitVal_digitChar n hn
    · have hdiv : n / 10 < 10 ^ f := by
        rw [Nat.div_lt_iff_lt_mul (by norm_num : 0 < 10)]
        calc n < 10 ^ (f + 1) := h
        _ = 10 ^ f * 10 := by ring
      simp only [h0, if_false]
      rw [toDigitsCore_acc, parseNum_concat, ih _ hdiv,
        digitVal_digitChar _ (Nat.mod_lt n (by norm_num))]
      omega

theorem parseNum_repr (n : Nat) : parseNum (Nat.repr n).data = n := by
  have h1 : n < 10 ^ n := Nat.lt_pow_self (by norm_num) n
  have h : n < 10 ^ (n + 1) :=
    h1.trans_le (Nat.pow_le_pow_right (by norm_num) (Nat.le_succ n))
  simpa [Nat.repr, Nat.toDigits, List.asString] using parseNum_toDigitsCore (n + 1) n h

theorem nat_repr_injective : Function.Injective Nat.repr := by
  intro m n h
  have hm := parseNum_repr m
  rw [h, parseNum_repr] at hm
  exact hm.symm

theorem string_data_append (s t : String) : (s ++ t).data = s.data ++ t.data := rfl

/-- The candidate tried at loop index i in create's slug-disambiguation loop:
the bare base slug at i = 1, then f"\x7bbase_slug\x7d-\x7bi\x7d" for i ≥ 2. -/
def slugCandidate (base : String) (i : Nat) : String :=
  if i = 1 then base else base ++ "-" ++ Nat.repr i

theorem slugCandidate_injective (base : String) :
    ∀ i j, 2 ≤ i → 2 ≤ j → slugCandidate base i = slugCandidate base j → i = j := by
  intro i j hi hj h
  simp only [slugCandidate, if_neg (by omega : ¬i = 1), if_neg (by omega : ¬j = 1)] at h
  have hd := congrArg String.data h
  rw [string_data_append, string_data_append] at hd
  have hcancel : (Nat.repr i).data = (Nat.repr j).data := List.append_cancel_left hd
  have h2 : parseNum (Nat.repr i).data = parseNum (Nat.repr j).data := congrArg parseNum hcancel
  rw [parseNum_repr, parseNum_repr] at h2
  exact h2

theorem slugCandidate_exists_not_mem (taken : List String) (base : String) :
    ∃ i : Nat, slugCandidate base (i + 1) ∉ taken := by
  by_contra hall
  push_neg at hall
  have hinj : Set.InjOn (fun k => slugCandidate base (k + 2))
      ↑(Finset.range (taken.length + 1)) := by
    intro a _ b _ hab
    have := slugCandidate_injective base (a + 2) (b + 2) (by omega) (by omega) hab
    omega
  have hsub : (Finset.range (taken.length + 1)).image (fun k => slugCandidate base (k + 2)) ⊆
      taken.toFinset := by
    intro s hs
    simp only [Finset.mem_image] at hs
    obtain ⟨k, _, rfl⟩ := hs
    exact List.mem_toFinset.mpr (hall (k + 1))
  have hcard := Finset.card_le_card hsub
  rw [Finset.card_image_of_injOn hinj, Finset.card_range] at hcard
  have := taken.toFinset_card_le
  omega

/-- The slug-disambiguation loop of create (lines 371-374): starting from the
base slug, try base, base-2, base-3, … and return the first candidate not yet
taken.  The while loop checks candidate i = 1 (the bare base) first and then
increments, so its result is the candidate at the least free index. -/
def genSlug (taken : List String) (base : String) : String :=
  slugCandidate base (Nat.find (slugCandidate_exists_not_mem taken base) + 1)

theorem genSlug_not_mem (taken : List String) (base : String) :
    genSlug taken base ∉ taken :=
  Nat.find_spec (slugCandidate_exists_not_mem taken base)

theorem genSlug_of_free (taken : List String) (base : String) (h : base ∉ taken) :
    genSlug taken base = base := by
  unfold genSlug
  have h0 : Nat.find (slugCandidate_exists_not_mem taken base) = 0 := by
    rw [Nat.find_eq_zero]
    simpa [slugCandidate] using h
  rw [h0]
  simp [slugCandidate]

theorem string_data_ext (a b : String) (h : a.data = b.data) : a = b := by
  cases a; cases b
  exact congrArg String.mk (by simpa using h)

theorem string_append_assoc (a b c : String) : a ++ b ++ c = a ++ (b ++ c) := by
  apply string_data_ext
  simp [string_data_append]

theorem slugCandidate_two (base : String) : slugCandidate base 2 = base ++ "-2" := by
  have h : ("-" ++ Nat.repr 2 : String) = "-2" := by decide
  simp only [slugCandidate, if_neg (by omega : ¬(2 : Nat) = 1)]
  rw [string_append_assoc, h]

theorem slugCandidate_three (base : String) : slugCandidate base 3 = base ++ "-3" := by
  have h : ("-" ++ Nat.repr 3 : String) = "-3" := by decide
  simp only [slugCandidate, if_neg (by omega : ¬(3 : Nat) = 1)]
  rw [string_append_assoc, h]

theorem genSlug_of_taken_once (taken : List String) (base : String)
    (h1 : base ∈ taken) (h2 : base ++ "-2" ∉ taken) :
    genSlug taken base = base ++ "-2" := by
  unfold genSlug
  have hfind : Nat.find (slugCandidate_exists_not_mem taken base) = 1 := by
    rw [Nat.find_eq_iff]
    constructor
    · show slugCandidate base 2 ∉ taken
      rw [slugCandidate_two]
      exact h2
    · intro m hm
      interval_cases m
      simpa [slugCandidate] using h1
  rw [hfind]
  exact slugCandidate_two base

theorem genSlug_of_taken_twice (taken : List String) (base : String)
    (h1 : base ∈ taken) (h2 : base ++ "-2" ∈ taken) (h3 : base ++ "-3" ∉ taken) :
    genSlug taken base = base ++ "-3" := by
  unfold genSlug
  have hfind : Nat.find (slugCandidate_exists_not_mem taken base) = 2 := by
    rw [Nat.find_eq_iff]
    constructor
    · show slugCandidate base 3 ∉ taken
      rw [slugCandidate_three]
      exact h3
    · intro m hm
      interval_cases m
      · simpa [slugCandidate] using h1
      · show ¬slugCandidate base 2 ∉ taken
        rw [slugCandidate_two]
        simpa using h2
  rw [hfind]
  exact slugCandidate_three base

/-! ### Data model (the SQLAlchemy rows of src/5_Contact.py, lines 46-79) -/

/-- A QRCode row.  data_json holds the payload value itself: json.dumps at
creation (line 377) and json.loads at resolution (lines 414, 444) are mutually
inverse on the values payload_for produces and are elided.  created_at is
omitted (no claim mentions time). -/
structure QRCodeRow where
  id : Nat
  owner_id : Nat
  name : String
  slug : String
  qr_type : String
  data_json : Json
  fg : String
  bg : String
  logo_path : Option String
  mode : String

/-- A ScanEvent row (id and ts omitted; no claim mentions them). -/
structure ScanEvent where
  code_id : Nat
  ip : String
  ua : String
  referer : String
  path : String
deriving DecidableEq

/-- The relational store: QRCode rows in insertion order, ScanEvent rows in
insertion order, and the autoincrement counter for QRCode ids. -/
structure DB where
  codes : List QRCodeRow
  scans : List ScanEvent
  nextCodeId : Nat

/-- The implicit single owner created at startup (lines 73-79). -/
def DEFAULT_OWNER_ID : Nat := 1

/-- Base URL used by url_for(..., _external=True); the host comes from the
request context and is modelled as a fixed string. -/
def EXTERNAL_BASE : String := "http://localhost"

/-! ### Upload helpers (lines 222-253) -/

def ALLOWED_IMG : List String := ["png", "jpg", "jpeg", "gif", "webp", "bmp", "svg"]

def ALLOWED_PDF : List String := ["pdf"]

def ALLOWED_AUDIO : List String := ["mp3", "wav", "m4a", "aac", "ogg"]

def ALLOWED_VIDEO : List String := ["mp4", "webm", "mov", "mkv"]

def ALLOWED_DOCS : List String :=
  ["txt", "csv", "md", "doc", "docx", "ppt", "pptx", "xls", "xlsx", "rtf"]

def ALLOWED_ARCH : List String := ["zip", "rar", "7z", "gz", "tar"]

def ALLOWED_MISC : List String := ["apk"]

def ALLOWED_ANY : List String :=
  ALLOWED_IMG ++ ALLOWED_PDF ++ ALLOWED_AUDIO ++ ALLOWED_VIDEO ++ ALLOWED_DOCS ++
    ALLOWED_ARCH ++ ALLOWED_MISC

/-- An uploaded file as seen by the route (werkzeug FileStorage; only the
filename matters to the control flow modelled here). -/
structure UploadedFile where
  filename : String
deriving DecidableEq

/-- save_upload (lines 237-250).  Returns None for a missing/empty upload,
raises ValueError (modelled as Except.error) for a disallowed extension, and
otherwise stores the file under a random name (the token_hex(8) value is the
explicit argument tok) and returns its /u/ URL.  The best-effort image
downscale (lines 244-249) does not affect the returned URL and is elided. -/
def save_upload (file_storage : Option UploadedFile) (allowed_ext : List String)
    (tok : String) : Except String (Option String) :=
  match file_storage with
  | none => .ok none
  | some fs =>
    if fs.filename = "" then .ok none
    else
      let ext := safeExt fs.filename
      if ext ∈ allowed_ext then
        .ok (some (EXTERNAL_BASE ++ "/u/" ++ tok ++ "." ++ ext))
      else
        .error ("Unsupported file type: ." ++ ext)

/-- save_multi (lines 252-253): save every file that has a filename; an
exception from any save_upload propagates.  toks supplies the random names. -/
def save_multi : List UploadedFile → List String → List String → Except String (List String)
  | [], _, _ => .ok []
  | f :: fs, allowed_ext, toks =>
    if f.filename = "" then save_multi fs allowed_ext toks
    else
      match save_upload (some f) allowed_ext (toks.headD "tok") with
      | .error e => .error e
      | .ok u =>
        match save_multi fs allowed_ext toks.tail with
        | .error e => .error e
        | .ok us => .ok (u.getD "" :: us)

/-! ### Code Registry: lookup and creation -/

/-- QRCode.query.filter_by(slug=slug).first() — as used by the scan and
download routes (lines 434, 481). -/
def find_by_slug (db : DB) (slug : String) : Option QRCodeRow :=
  db.codes.find? (fun r => r.slug == slug)

/-- QRCode.query.filter_by(slug=slug, owner_id=DEFAULT_OWNER_ID).first() — as
used by the view_code route (line 397). -/
def view_code (db : DB) (slug : String) : Option QRCodeRow :=
  db.codes.find? (fun r => r.slug == slug && r.owner_id == DEFAULT_OWNER_ID)

/-- The persistence tail of the create route (lines 371-379): derive the base
slug from the name, falling back to a random token (tok3, the token_hex(3)
value) when slugify returns the empty string; disambiguate against existing
slugs; insert and commit the row; return it. -/
def create_code (db : DB) (name qr_type : String) (payload : Json) (fg bg : String)
    (logo_path : Option String) (mode : String) (tok3 : String) : QRCodeRow × DB :=
  let base_slug := pyOrStr (slugify name) tok3
  let slug := genSlug (db.codes.map (fun r => r.slug)) base_slug
  let row : QRCodeRow :=
    ⟨db.nextCodeId, DEFAULT_OWNER_ID, name, slug, qr_type, payload, fg, bg, logo_path, mode⟩
  (row, ⟨db.codes ++ [row], db.scans, db.nextCodeId + 1⟩)

/-! ### Payload Resolver (code_target, lines 413-430) -/

/-- The URL-backed types of lines 311 and 417. -/
def URL_TYPES : List String :=
  ["website", "pdf", "video", "app", "facebook", "instagram", "whatsapp", "coupon", "mp3"]

/-- code_target (lines 413-430).  Stored link lists always carry a "url" key
and payloads of list shape are genuine lists (they come from payload_for), so
the branches where Python would raise KeyError/TypeError on a malformed
payload are unreachable; the model returns the sentinel there. -/
def code_target (qr : QRCodeRow) : Json :=
  let payload := qr.data_json
  if qr.mode = "landing" then .str (EXTERNAL_BASE ++ "/l/" ++ qr.slug)
  else if qr.qr_type ∈ URL_TYPES then payload.getD "url" .null
  else if qr.qr_type = "links" then
    match payload.getD "links" (.arr []) with
    | .arr (l :: _) => l.getD "url" .null
    | _ => .str "#"
  else if qr.qr_type = "images" then
    match payload.getD "images" (.arr []) with
    | .arr (i :: _) => i
    | _ => .str "#"
  else if qr.qr_type = "business" then pyOr (payload.getD "website" .null) (.str "#")
  else if qr.qr_type = "wifi" then
    .str ("WIFI:T:" ++ (payload.getD "security" (.str "WPA")).pyStr ++
      ";S:" ++ (payload.getD "ssid" (.str "")).pyStr ++
      ";P:" ++ (payload.getD "password" (.str "")).pyStr ++ ";;")
  else if qr.qr_type = "vcard" then payload.getD "vcard_text" .null
  else pyOr (payload.getD "url" .null) (.str "#")

/-! ### Scan Recorder (log_scan, lines 401-411) -/

/-- The request headers that log_scan reads. -/
structure ReqInfo where
  ip : String
  ua : String
  referer : String
deriving DecidableEq

/-- db.session.add + db.session.commit for the ScanEvent insert; the
storageFails flag stands for a storage-layer exception raised at commit. -/
def commit_insert_scan (db : DB) (ev : ScanEvent) (storageFails : Bool) : Except String DB :=
  if storageFails then .error "storage failure"
  else .ok ⟨db.codes, db.scans ++ [ev], db.nextCodeId⟩

/-- log_scan (lines 401-411): try to insert a ScanEvent; on any exception
roll back (discarding the pending insert) and return normally — the error is
swallowed and never reaches the caller. -/
def log_scan (db : DB) (code_id : Nat) (req : ReqInfo) (path : String)
    (storageFails : Bool) : DB :=
  match commit_insert_scan db ⟨code_id, req.ip, req.ua, req.referer, path⟩ storageFails with
  | .ok updated => updated
  | .error _ => db

/-! ### Image rendering (lines 255-274 and 467-477) -/

/-- The raster QR image produced by qr_png_pil: the encoded data plus the
styling it was drawn with.  Pixel generation is the qrcode/Pillow libraries;
logo-overlay failures are swallowed (lines 259-269) and do not affect which
image object is produced. -/
structure PILImage where
  data : String
  fg : String
  bg : String
  logo_path : Option String
deriving DecidableEq

/-- Bytes returned to the client: a Pillow raster image serialised with the
given encoder format, or the SVG text produced by the qrcode SVG factory. -/
inductive ImageBytes where
  | raster (img : PILImage) (format : String)
  | svgText (data : String)
deriving DecidableEq

/-- qr_png_pil (lines 255-270). -/
def qr_png_pil (data fg bg : String) (logo_path : Option String) : PILImage :=
  ⟨data, fg, bg, logo_path⟩

/-- qr_svg_text (lines 272-274). -/
def qr_svg_text (data : String) : ImageBytes :=
  .svgText data

/-- Model of _qr_bytes (lines 467-477): pick the encoder from the lower-cased format,
defaulting to PNG, and pair the bytes with their MIME type. -/
def qr_bytes (qr : QRCodeRow) (fmt : String) : ImageBytes × String :=
  let data := EXTERNAL_BASE ++ "/s/" ++ qr.slug
  if pyLower fmt = "svg" then (qr_svg_text data, "image/svg+xml")
  else
    let img := qr_png_pil data qr.fg qr.bg qr.logo_path
    let f := pyLower fmt
    if f = "jpg" then (.raster img "JPEG", "image/jpeg")
    else if f = "webp" then (.raster img "WEBP", "image/webp")
    else if f = "pdf" then (.raster img "PDF", "application/pdf")
    else if f = "eps" then (.raster img "EPS", "application/postscript")
    else (.raster img "PNG", "image/png")

/-! ### HTTP responses and routes -/

/-- The responses the modelled routes can produce. -/
inductive Response where
  | redirect (location : String)
  | html (body : String)
  | fileDownload (bytes : ImageBytes) (mimetype : String) (download_name : String)
  | notFound
deriving DecidableEq

/-- Whether a response delivers content to the scanning client (a redirect,
a rendered body, or a file) rather than an HTTP error. -/
def Response.completes : Response → Bool
  | .redirect _ => true
  | .html _ => true
  | .fileDownload _ _ _ => true
  | .notFound => false

/-- The scan route GET /s/<slug> (lines 432-439).  A non-string truthy target
(where Python startswith would raise) cannot arise from stored payloads; the
model routes such values through the final redirect like Python routes
falsy ones. -/
def scan (db : DB) (slug : String) (req : ReqInfo) (storageFails : Bool) : Response × DB :=
  match find_by_slug db slug with
  | none => (.notFound, db)
  | some qr =>
    let target := code_target qr
    let db1 := log_scan db qr.id req ("/s/" ++ slug) storageFails
    match target with
    | .str s =>
      if pyStartswith s "WIFI:" || pyStartswith s "BEGIN:VCARD" then
        (.html ("<pre>" ++ s ++ "</pre>"), db1)
      else if qr.mode = "landing" then (.redirect ("/l/" ++ slug), db1)
      else (.redirect (if s.isEmpty then "#" else s), db1)
    | other =>
      if qr.mode = "landing" then (.redirect ("/l/" ++ slug), db1)
      else (.redirect (pyOr other (.str "#")).pyStr, db1)

/-- The download route GET /d/<slug>.<fmt> (lines 479-484). -/
def download (db : DB) (slug fmt : String) : Response :=
  match find_by_slug db slug with
  | none => .notFound
  | some qr =>
    let bm := qr_bytes qr fmt
    .fileDownload bm.1 bm.2 (qr.slug ++ "." ++ pyLower fmt)

/-! ### The create route, POST branch (lines 287-379) -/

/-- The multipart form fields the POST branch reads.  name and qr_type are
accessed with request.form[...] and are therefore present; every other field
is accessed with request.form.get and may be absent (None). -/
structure CreateForm where
  name : String
  qr_type : String
  url : Option String
  images : Option String
  links : Option String
  biz_name : Option String
  website : Option String
  desc : Option String
  ssid : Option String
  password : Option String
  security : Option String
  fn : Option String
  title : Option String
  email : Option String
  phone : Option String
  org : Option String
  fg : Option String
  bg : Option String
  mode : Option String

/-- The file parts of the multipart form. -/
structure CreateFiles where
  file : Option UploadedFile
  file_images : List UploadedFile
  logo : Option UploadedFile

/-- The secrets.token_hex values consumed by one POST, passed in explicitly:
for the generic upload, the multi-image uploads, the logo, and the slug
fallback (token_hex(3), line 371). -/
structure TokenSupply where
  tok_file : String
  toks_images : List String
  tok_logo : String
  tok_slug : String

/-- Option String to stored value: Python str or None. -/
def optStrJson : Option String → Json
  | some s => .str s
  | none => .null

/-- url_val (line 300): (request.form.get("url") or "").strip() or None. -/
def url_val_of (u : Option String) : Option String :=
  let s := pyStrip (u.getD "")
  if s.isEmpty then none else some s

/-- payload_for (lines 303-347), the per-type payload builder.  splitlines is
modelled as splitting on the newline character. -/
def payload_for (form : CreateForm) (up_url : Option String)
    (uploaded_file : Option UploadedFile) (images_extra : List String)
    (url_val : Option String) (t : String) : Json :=
  if t = "images" then
    let url_list :=
      ((((form.images.getD "").splitOn ",").map pyStrip).filter (fun u => !u.isEmpty))
    let gen_is_img : Bool :=
      match up_url, uploaded_file with
      | some _, some uf => decide (safeExt uf.filename ∈ ALLOWED_IMG)
      | _, _ => false
    let gen_extra : List String :=
      match up_url with
      | some u => if gen_is_img then [u] else []
      | none => []
    .obj [("images", .arr ((url_list ++ images_extra ++ gen_extra).map Json.str))]
  else if t ∈ URL_TYPES then .obj [("url", optStrJson (pyOrOpt up_url url_val))]
  else if t = "links" ∨ t = "social" then
    let rows :=
      ((((form.links.getD "").splitOn "\n").map pyStrip).filter (fun l => !l.isEmpty))
    let links := rows.filterMap (fun row =>
      if row.contains '|' then
        let parts := row.splitOn "|"
        some (Json.obj [("label", .str (pyStrip (parts.headD ""))),
                        ("url", .str (pyStrip (String.intercalate "|" parts.tail)))])
      else none)
    .obj [("links", .arr links)]
  else if t = "business" then
    .obj [("name", optStrJson form.biz_name), ("website", optStrJson form.website),
          ("desc", optStrJson form.desc)]
  else if t = "wifi" then
    .obj [("ssid", optStrJson form.ssid), ("password", optStrJson form.password),
          ("security", .str (form.security.getD "WPA"))]
  else if t = "vcard" then
    let fn := form.fn.getD ""
    let title := form.title.getD ""
    let email := form.email.getD ""
    let phone := form.phone.getD ""
    let org := form.org.getD ""
    let website := form.website.getD ""
    let vcard := "BEGIN:VCARD\nVERSION:3.0\nN:" ++ fn ++ "\nFN:" ++ fn ++
      "\nTITLE:" ++ title ++ "\nORG:" ++ org ++ "\nTEL;TYPE=CELL:" ++ phone ++
      "\nEMAIL;TYPE=INTERNET:" ++ email ++ "\nURL:" ++ website ++ "\nEND:VCARD"
    .obj [("fn", .str fn), ("title", .str title), ("email", .str email),
          ("phone", .str phone), ("org", .str org), ("website", .str website),
          ("vcard_text", .str vcard)]
  else .obj [("url", optStrJson (pyOrOpt up_url url_val))]

/-- The POST branch of the create route (lines 287-379).  The generic upload
(line 295) and the multi-image uploads (line 298) run BEFORE the
try/except ValueError of lines 349-352, which wraps only the payload_for
call; payload_for itself raises no ValueError, so that handler (flash +
redirect back to the form) is unreachable, and a disallowed file extension
propagates out of the route as an uncaught exception (Except.error here,
an HTTP 500 in Flask).  An unsupported logo extension only flashes a warning
and continues with no logo (lines 359-369). -/
def create (db : DB) (form : CreateForm) (files : CreateFiles) (toks : TokenSupply) :
    Except String (Response × DB) :=
  let name := pyStrip form.name
  let qr_type := form.qr_type
  match (match files.file with
         | some uf =>
           if uf.filename = "" then Except.ok none
           else save_upload (some uf) ALLOWED_ANY toks.tok_file
         | none => Except.ok (none : Option String)) with
  | .error e => .error e
  | .ok up_url =>
    match save_multi files.file_images ALLOWED_IMG toks.toks_images with
    | .error e => .error e
    | .ok images_extra =>
      let uv := url_val_of form.url
      let payload := payload_for form up_url files.file images_extra uv qr_type
      let fg := form.fg.getD "#000000"
      let bg := form.bg.getD "#ffffff"
      let mode := form.mode.getD "redirect"
      let logo_path : Option String :=
        match files.logo with
        | some lf =>
          if lf.filename = "" then none
          else if safeExt lf.filename ∈ ALLOWED_IMG then
            some ("logo_" ++ toks.tok_logo ++ "." ++ safeExt lf.filename)
          else none
        | none => none
      let rdb := create_code db name qr_type payload fg bg logo_path mode toks.tok_slug
      .ok (.redirect ("/code/" ++ rdb.1.slug), rdb.2)

/-! ### Shared helper lemmas -/

theorem find?_append_singleton {α : Type} (l : List α) (a : α) (p : α → Bool)
    (hl : ∀ x ∈ l, p x = false) (ha : p a = true) :
    (l ++ [a]).find? p = some a := by
  induction l with
  | nil => simp [List.find?, ha]
  | cons c cs ih =>
    rw [List.cons_append, List.find?_cons_of_neg _ (by simp [hl c (List.mem_cons_self c cs)])]
    exact ih (fun x hx => hl x (List.mem_cons_of_mem c hx))

theorem create_code_fst (db : DB) (name qr_type : String) (payload : Json) (fg bg : String)
    (logo_path : Option String) (mode tok3 : String) :
    (create_code db name qr_type payload fg bg logo_path mode tok3).1 =
      ⟨db.nextCodeId, DEFAULT_OWNER_ID, name,
        genSlug (db.codes.map (fun r => r.slug)) (pyOrStr (slugify name) tok3),
        qr_type, payload, fg, bg, logo_path, mode⟩ := rfl

theorem create_code_snd_codes (db : DB) (name qr_type : String) (payload : Json)
    (fg bg : String) (logo_path : Option String) (mode tok3 : String) :
    (create_code db name qr_type payload fg bg logo_path mode tok3).2.codes =
      db.codes ++ [(create_code db name qr_type payload fg bg logo_path mode tok3).1] := rfl

theorem string_append_right_inj (s a b : String) (h : s ++ a = s ++ b) : a = b := by
  apply string_data_ext
  have hd := congrArg String.data h
  rw [string_data_append, string_data_append] at hd
  exact List.append_cancel_left hd

theorem string_append_suffix_ne (s : String) (a b : String) (h : a ≠ b) : s ++ a ≠ s ++ b :=
  fun he => h (string_append_right_inj s a b he)

theorem string_ne_append_of_length (s t : String) (h : t.length ≠ 0) : s ++ t ≠ s := by
  intro he
  have := congrArg String.length he
  rw [String.length_append] at this
  omega

/-- The empty store used by concrete scenarios (the autoincrement id starts
at 1 like SQLite). -/
def emptyDB : DB := ⟨[], [], 1⟩

/-! ### C1: create followed by lookup returns identical type and payload -/

/-- C1: for every (name, type, payload) input (and any styling, mode and
random token), creating a Code and then looking its slug up via the view_code
query returns exactly the inserted row, whose qr_type and data_json are the
type and payload supplied at creation. -/
theorem create_then_view_roundtrip (db : DB) (name qr_type : String) (payload : Json)
    (fg bg : String) (logo_path : Option String) (mode tok3 : String) :
    view_code (create_code db name qr_type payload fg bg logo_path mode tok3).2
        (create_code db name qr_type payload fg bg logo_path mode tok3).1.slug =
      some (create_code db name qr_type payload fg bg logo_path mode tok3).1 ∧
    (create_code db name qr_type payload fg bg logo_path mode tok3).1.qr_type = qr_type ∧
    (create_code db name qr_type payload fg bg logo_path mode tok3).1.data_json = payload := by
  refine ⟨?_, rfl, rfl⟩
  unfold view_code
  rw [create_code_snd_codes]
  apply find?_append_singleton
  · intro r hr
    have hnot := genSlug_not_mem (db.codes.map (fun r => r.slug)) (pyOrStr (slugify name) tok3)
    have hne : r.slug ≠ (create_code db name qr_type payload fg bg logo_path mode tok3).1.slug := by
      intro he
      apply hnot
      have hproj : (create_code db name qr_type payload fg bg logo_path mode tok3).1.slug =
          genSlug (db.codes.map (fun r => r.slug)) (pyOrStr (slugify name) tok3) := rfl
      rw [hproj] at he
      exact he ▸ List.mem_map_of_mem (fun r => r.slug) hr
    simp [hne]
  · have howner : (create_code db name qr_type payload fg bg logo_path mode tok3).1.owner_id =
        DEFAULT_OWNER_ID := rfl
    simp [howner]

/-! ### C2: slug uniqueness and deterministic numeric suffixes -/

/-- C2 counterexample: the claim says every Code's slug is produced by
slugifying the name, the second Code with the same name getting name-2.  For
the name "!!!" slugify returns the empty string and the code falls back to a
random token (secrets.token_hex(3), here the supplied tokens a1b2c3 and
d4e5f6): the second Code's slug is the second token, not
slugify("!!!") ++ "-2" = "-2". -/
theorem slug_suffix_counterexample :
    (create_code
        (create_code emptyDB "!!!" "website" (.obj [("url", .null)]) "#000000" "#ffffff"
          none "redirect" "a1b2c3").2
        "!!!" "website" (.obj [("url", .null)]) "#000000" "#ffffff"
        none "redirect" "d4e5f6").1.slug = "d4e5f6" ∧
    slugify "!!!" ++ "-2" = "-2" ∧ ("d4e5f6" : String) ≠ "-2" := by
  have hslug : slugify "!!!" = "" := by decide
  have h1 : (create_code emptyDB "!!!" "website" (.obj [("url", .null)]) "#000000" "#ffffff"
      none "redirect" "a1b2c3").1.slug = "a1b2c3" := by
    rw [create_code_fst]
    show genSlug (emptyDB.codes.map (fun r => r.slug)) (pyOrStr (slugify "!!!") "a1b2c3") = _
    rw [hslug]
    exact genSlug_of_free _ _ (by simp [emptyDB])
  refine ⟨?_, by rw [hslug]; decide, by decide⟩
  rw [create_code_fst]
  show genSlug _ (pyOrStr (slugify "!!!") "d4e5f6") = _
  rw [hslug]
  have hmap : (create_code emptyDB "!!!" "website" (.obj [("url", .null)]) "#000000" "#ffffff"
      none "redirect" "a1b2c3").2.codes.map (fun r => r.slug) = ["a1b2c3"] := by
    rw [create_code_snd_codes]
    simp only [List.map_append, List.map_cons, List.map_nil, h1]
    rfl
  rw [show pyOrStr "" "d4e5f6" = "d4e5f6" from rfl, hmap]
  exact genSlug_of_free _ _ (by decide)

/-- C2 (amended): any two of three Codes created with the same name always
receive distinct slugs; and whenever slugify(name) is nonempty and neither it
nor its -2 and -3 variants are already taken, the first Code's slug is
slugify(name) and the second and third deterministically receive the -2 and
-3 suffixes.  (When slugify(name) is empty the base slug is a random token
instead — see the counterexample — but distinctness still holds.) -/
theorem slug_unique_and_deterministic_suffixes (db : DB) (name : String)
    (p1 p2 p3 : Json) (f1 b1 f2 b2 f3 b3 : String) (l1 l2 l3 : Option String)
    (m1 m2 m3 ty1 ty2 ty3 k1 k2 k3 : String) (c1 c2 c3 : QRCodeRow × DB)
    (hc1 : c1 = create_code db name ty1 p1 f1 b1 l1 m1 k1)
    (hc2 : c2 = create_code c1.2 name ty2 p2 f2 b2 l2 m2 k2)
    (hc3 : c3 = create_code c2.2 name ty3 p3 f3 b3 l3 m3 k3) :
    (c1.1.slug ≠ c2.1.slug ∧ c1.1.slug ≠ c3.1.slug ∧ c2.1.slug ≠ c3.1.slug) ∧
    (slugify name ≠ "" →
      slugify name ∉ db.codes.map (fun r => r.slug) →
      slugify name ++ "-2" ∉ db.codes.map (fun r => r.slug) →
      slugify name ++ "-3" ∉ db.codes.map (fun r => r.slug) →
      c1.1.slug = slugify name ∧ c2.1.slug = slugify name ++ "-2" ∧
        c3.1.slug = slugify name ++ "-3") := by
  have hmem1 : c1.1.slug ∈ c1.2.codes.map (fun r => r.slug) := by
    rw [hc1, create_code_snd_codes]
    simp
  have hmem12 : c1.1.slug ∈ c2.2.codes.map (fun r => r.slug) := by
    rw [hc2, create_code_snd_codes]
    simp only [List.map_append, List.mem_append]
    exact Or.inl hmem1
  have hmem2 : c2.1.slug ∈ c2.2.codes.map (fun r => r.slug) := by
    rw [hc2, create_code_snd_codes]
    simp
  have hnot2 : c2.1.slug ∉ c1.2.codes.map (fun r => r.slug) := by
    rw [hc2, create_code_fst]
    exact genSlug_not_mem _ _
  have hnot3 : c3.1.slug ∉ c2.2.codes.map (fun r => r.slug) := by
    rw [hc3, create_code_fst]
    exact genSlug_not_mem _ _
  constructor
  · refine ⟨fun he => hnot2 (he ▸ hmem1), fun he => hnot3 (he ▸ hmem12),
      fun he => hnot3 (he ▸ hmem2)⟩
  · intro hne h0 h2 h3
    have hbase : ∀ k : String, pyOrStr (slugify name) k = slugify name := by
      intro k
      unfold pyOrStr
      rw [if_neg (by simpa [String.isEmpty_iff] using hne)]
    have e1 : c1.1.slug = slugify name := by
      rw [hc1, create_code_fst]
      show genSlug _ (pyOrStr (slugify name) k1) = _
      rw [hbase]
      exact genSlug_of_free _ _ h0
    have hcodes1 : c1.2.codes.map (fun r => r.slug) =
        db.codes.map (fun r => r.slug) ++ [slugify name] := by
      rw [hc1, create_code_snd_codes]
      simp only [List.map_append, List.map_cons, List.map_nil]
      rw [← hc1, e1]
    have e2 : c2.1.slug = slugify name ++ "-2" := by
      rw [hc2, create_code_fst]
      show genSlug _ (pyOrStr (slugify name) k2) = _
      rw [hbase, hcodes1]
      apply genSlug_of_taken_once
      · simp
      · simp only [List.mem_append, List.mem_singleton]
        push_neg
        exact ⟨h2, string_ne_append_of_length _ _ (by decide)⟩
    have hcodes2 : c2.2.codes.map (fun r => r.slug) =
        (db.codes.map (fun r => r.slug) ++ [slugify name]) ++ [slugify name ++ "-2"] := by
      rw [hc2, create_code_snd_codes]
      simp only [List.map_append, List.map_cons, List.map_nil]
      rw [← hc2, e2, hcodes1]
    have e3 : c3.1.slug = slugify name ++ "-3" := by
      rw [hc3, create_code_fst]
      show genSlug _ (pyOrStr (slugify name) k3) = _
      rw [hbase, hcodes2]
      apply genSlug_of_taken_twice
      · simp
      · simp
      · simp only [List.mem_append, List.mem_singleton]
        push_neg
        refine ⟨⟨h3, string_ne_append_of_length _ _ (by decide)⟩, ?_⟩
        exact string_append_suffix_ne _ _ _ (by decide)
    exact ⟨e1, e2, e3⟩

/-- C2 witness: three Codes named "My QR" created into an empty store receive
the slugs my-qr, my-qr-2 and my-qr-3, pairwise distinct. -/
theorem slug_unique_and_deterministic_suffixes_witness :
    ((create_code emptyDB "My QR" "website" (.obj [("url", .null)]) "#000000" "#ffffff"
        none "redirect" "t1").1.slug = "my-qr" ∧
      (create_code
          (create_code emptyDB "My QR" "website" (.obj [("url", .null)]) "#000000" "#ffffff"
            none "redirect" "t1").2
          "My QR" "website" (.obj [("url", .null)]) "#000000" "#ffffff"
          none "redirect" "t2").1.slug = "my-qr-2" ∧
      (create_code
          (create_code
              (create_code emptyDB "My QR" "website" (.obj [("url", .null)]) "#000000" "#ffffff"
                none "redirect" "t1").2
              "My QR" "website" (.obj [("url", .null)]) "#000000" "#ffffff"
              none "redirect" "t2").2
          "My QR" "website" (.obj [("url", .null)]) "#000000" "#ffffff"
          none "redirect" "t3").1.slug = "my-qr-3") ∧
    "my-qr" ≠ "my-qr-2" := by
  have h := slug_unique_and_deterministic_suffixes emptyDB "My QR"
    (.obj [("url", .null)]) (.obj [("url", .null)]) (.obj [("url", .null)])
    "#000000" "#ffffff" "#000000" "#ffffff" "#000000" "#ffffff" none none none
    "redirect" "redirect" "redirect" "website" "website" "website" "t1" "t2" "t3"
    _ _ _ rfl rfl rfl
  have hs : slugify "My QR" = "my-qr" := by decide
  have h2 := h.2 (by rw [hs]; decide) (by simp [emptyDB]) (by simp [emptyDB])
    (by simp [emptyDB])
  rw [hs] at h2
  exact ⟨⟨h2.1, h2.2.1, h2.2.2⟩, by decide⟩

/-! ### C3: WiFi codes resolve to the WIFI: descriptor string -/

/-- C3: every Code of type wifi in redirect mode resolves to
WIFI:T:security;S:ssid;P:password;; built from the stored payload, the
security field defaulting to WPA when unset (the getD hypotheses cover both a
present string field and an absent one picked up by the default). -/
theorem wifi_target_format (qr : QRCodeRow) (s p sec : String)
    (htype : qr.qr_type = "wifi") (hmode : qr.mode = "redirect")
    (hs : qr.data_json.getD "ssid" (.str "") = .str s)
    (hp : qr.data_json.getD "password" (.str "") = .str p)
    (hsec : qr.data_json.getD "security" (.str "WPA") = .str sec) :
    code_target qr = .str ("WIFI:T:" ++ sec ++ ";S:" ++ s ++ ";P:" ++ p ++ ";;") := by
  simp only [code_target]
  rw [hmode, htype,
    if_neg (by decide : ¬("redirect" : String) = "landing"),
    if_neg (by decide : ¬("wifi" : String) ∈ URL_TYPES),
    if_neg (by decide : ¬("wifi" : String) = "links"),
    if_neg (by decide : ¬("wifi" : String) = "images"),
    if_neg (by decide : ¬("wifi" : String) = "business"),
    if_pos rfl, hs, hp, hsec]
  rfl

/-- Concrete wifi Code used by the C3 witness. -/
def wifiRow : QRCodeRow :=
  ⟨1, 1, "Home WiFi", "home-wifi", "wifi",
    .obj [("ssid", .str "Home"), ("password", .str "secret"), ("security", .str "WPA")],
    "#000000", "#ffffff", none, "redirect"⟩

/-- C3 witness: the payload ssid Home, password secret, security WPA resolves
to exactly WIFI:T:WPA;S:Home;P:secret;;. -/
theorem wifi_target_format_witness :
    code_target wifiRow = .str "WIFI:T:WPA;S:Home;P:secret;;" :=
  wifi_target_format wifiRow "Home" "secret" "WPA" rfl rfl rfl rfl rfl

/-! ### C4: empty link lists, image lists and missing business websites
resolve to the sentinel -/

/-- C4: in redirect mode, a links or social Code with an empty link list, an
images Code with an empty image list, and a business Code with no stored
website all resolve to the documented sentinel "#", which is not the empty
string.  (For social the payload is the exact shape payload_for stores; for
business "no stored website" means the key is absent, None or empty.) -/
theorem empty_payload_resolves_to_sentinel (qr : QRCodeRow) (hmode : qr.mode = "redirect")
    (h : (qr.qr_type = "links" ∧ qr.data_json.getD "links" (.arr []) = .arr []) ∨
      (qr.qr_type = "social" ∧ qr.data_json = .obj [("links", .arr [])]) ∨
      (qr.qr_type = "images" ∧ qr.data_json.getD "images" (.arr []) = .arr []) ∨
      (qr.qr_type = "business" ∧ (qr.data_json.getD "website" .null = .null ∨
        qr.data_json.getD "website" .null = .str ""))) :
    code_target qr = .str "#" ∧ (Json.str "#" ≠ Json.str "") := by
  refine ⟨?_, by simp⟩
  rcases h with ⟨htype, hpl⟩ | ⟨htype, hpl⟩ | ⟨htype, hpl⟩ | ⟨htype, hpl⟩
  · simp only [code_target]
    rw [hmode, htype,
      if_neg (by decide : ¬("redirect" : String) = "landing"),
      if_neg (by decide : ¬("links" : String) ∈ URL_TYPES),
      if_pos rfl, hpl]
  · simp only [code_target]
    rw [hmode, htype, hpl,
      if_neg (by decide : ¬("redirect" : String) = "landing"),
      if_neg (by decide : ¬("social" : String) ∈ URL_TYPES),
      if_neg (by decide : ¬("social" : String) = "links"),
      if_neg (by decide : ¬("social" : String) = "images"),
      if_neg (by decide : ¬("social" : String) = "business"),
      if_neg (by decide : ¬("social" : String) = "wifi"),
      if_neg (by decide : ¬("social" : String) = "vcard")]
    rfl
  · simp only [code_target]
    rw [hmode, htype,
      if_neg (by decide : ¬("redirect" : String) = "landing"),
      if_neg (by decide : ¬("images" : String) ∈ URL_TYPES),
      if_neg (by decide : ¬("images" : String) = "links"),
      if_pos rfl, hpl]
  · simp only [code_target]
    rw [hmode, htype,
      if_neg (by decide : ¬("redirect" : String) = "landing"),
      if_neg (by decide : ¬("business" : String) ∈ URL_TYPES),
      if_neg (by decide : ¬("business" : String) = "links"),
      if_neg (by decide : ¬("business" : String) = "images"),
      if_pos rfl]
    rcases hpl with hpl | hpl <;> rw [hpl] <;> rfl

/-- Concrete empty-links Code used by the C4 witness. -/
def emptyLinksRow : QRCodeRow :=
  ⟨2, 1, "Links", "links-code", "links", .obj [("links", .arr [])],
    "#000000", "#ffffff", none, "redirect"⟩

/-- C4 witness: a links Code with an empty link list resolves to "#". -/
theorem empty_payload_resolves_to_sentinel_witness :
    code_target emptyLinksRow = .str "#" ∧ (Json.str "#" ≠ Json.str "") :=
  empty_payload_resolves_to_sentinel emptyLinksRow rfl (Or.inl ⟨rfl, rfl⟩)

/-! ### C5: resolution as a pure function of the Code's fields -/

/-- First landing-mode Code of the C5 counterexample. -/
def landingRowA : QRCodeRow :=
  ⟨3, 1, "n", "a", "website", .obj [("url", .str "http://x")],
    "#000000", "#ffffff", none, "landing"⟩

/-- Second landing-mode Code of the C5 counterexample: same type, payload and
mode, different slug. -/
def landingRowB : QRCodeRow :=
  ⟨4, 1, "n", "b", "website", .obj [("url", .str "http://x")],
    "#000000", "#ffffff", none, "landing"⟩

/-- C5 counterexample: two Codes agreeing on type, payload and mode but with
different slugs resolve to different targets — in landing mode the target is
the landing URL, which embeds the slug.  Resolution is therefore not a
function of (type, payload, mode) alone. -/
theorem resolver_not_pure_in_type_payload_mode :
    landingRowA.qr_type = landingRowB.qr_type ∧
    landingRowA.data_json = landingRowB.data_json ∧
    landingRowA.mode = landingRowB.mode ∧
    code_target landingRowA ≠ code_target landingRowB := by
  refine ⟨rfl, rfl, rfl, ?_⟩
  intro h
  rw [show code_target landingRowA = Json.str "http://localhost/l/a" from rfl,
    show code_target landingRowB = Json.str "http://localhost/l/b" from rfl] at h
  exact absurd (Json.str.inj h) (by decide)

/-- C5 (amended): resolution is a pure function of (type, payload, mode,
slug): two Codes agreeing on those four fields resolve to the same target, no
matter how their other attributes differ, and (being a function) resolving
the same unchanged Code twice yields the same target. -/
theorem resolver_pure_in_type_payload_mode_slug (q1 q2 : QRCodeRow)
    (hslug : q1.slug = q2.slug) (htype : q1.qr_type = q2.qr_type)
    (hpayload : q1.data_json = q2.data_json) (hmode : q1.mode = q2.mode) :
    code_target q1 = code_target q2 ∧ code_target q1 = code_target q1 := by
  refine ⟨?_, rfl⟩
  simp only [code_target, hslug, htype, hpayload, hmode]

/-- First redirect-mode Code of the C5 witness (differs from its partner in
id, name and colors only). -/
def pureRowA : QRCodeRow :=
  ⟨5, 1, "name one", "same-slug", "website", .obj [("url", .str "http://x")],
    "#000000", "#ffffff", none, "redirect"⟩

/-- Second redirect-mode Code of the C5 witness. -/
def pureRowB : QRCodeRow :=
  ⟨6, 1, "name two", "same-slug", "website", .obj [("url", .str "http://x")],
    "#111111", "#eeeeee", none, "redirect"⟩

/-- C5 amended witness: two Codes agreeing on slug, type, payload and mode
(but differing in id, name and styling) resolve identically. -/
theorem resolver_pure_in_type_payload_mode_slug_witness :
    code_target pureRowA = code_target pureRowB ∧ code_target pureRowA = code_target pureRowA :=
  resolver_pure_in_type_payload_mode_slug pureRowA pureRowB rfl rfl rfl rfl

/-! ### Unfolding lemma for the scan route on a found slug -/

theorem scan_eq (db : DB) (slug : String) (req : ReqInfo) (fails : Bool) (qr : QRCodeRow)
    (hfind : find_by_slug db slug = some qr) :
    scan db slug req fails =
      (match code_target qr with
       | .str s =>
         if pyStartswith s "WIFI:" || pyStartswith s "BEGIN:VCARD" then
           Response.html ("<pre>" ++ s ++ "</pre>")
         else if qr.mode = "landing" then Response.redirect ("/l/" ++ slug)
         else Response.redirect (if s.isEmpty then "#" else s)
       | other =>
         if qr.mode = "landing" then Response.redirect ("/l/" ++ slug)
         else Response.redirect (pyOr other (.str "#")).pyStr,
       log_scan db qr.id req ("/s/" ++ slug) fails) := by
  simp only [scan, hfind]
  cases code_target qr <;> dsimp only <;> split_ifs <;> rfl

/-! ### C6: recording the scan never raises; the response is unaffected -/

/-- C6: for a resolvable slug, the scan response is identical whether or not
the ScanEvent insert fails (the exception is swallowed inside log_scan and
rolled back, leaving the scan log untouched), and the response delivered is a
redirect/render, never an error. -/
theorem scan_unaffected_by_storage_failure (db : DB) (slug : String) (req : ReqInfo)
    (fails : Bool) (qr : QRCodeRow) (hfind : find_by_slug db slug = some qr) :
    (scan db slug req fails).1 = (scan db slug req false).1 ∧
    (scan db slug req true).2.scans = db.scans ∧
    (scan db slug req fails).1.completes = true := by
  rw [scan_eq db slug req fails qr hfind, scan_eq db slug req false qr hfind,
    scan_eq db slug req true qr hfind]
  refine ⟨rfl, rfl, ?_⟩
  cases code_target qr <;> dsimp only <;> split_ifs <;> rfl

/-- Store holding the wifi Code, used by the route witnesses. -/
def wifiDB : DB := ⟨[wifiRow], [], 2⟩

/-- Request headers used by the route witnesses. -/
def sampleReq : ReqInfo := ⟨"203.0.113.7", "agent", "ref"⟩

/-- C6 witness: scanning the wifi Code with the ScanEvent insert failing
yields the same (successfully completing) response as with it succeeding,
and leaves the scan log empty. -/
theorem scan_unaffected_by_storage_failure_witness :
    (scan wifiDB "home-wifi" sampleReq true).1 = (scan wifiDB "home-wifi" sampleReq false).1 ∧
    (scan wifiDB "home-wifi" sampleReq true).2.scans = wifiDB.scans ∧
    (scan wifiDB "home-wifi" sampleReq true).1.completes = true :=
  scan_unaffected_by_storage_failure wifiDB "home-wifi" sampleReq true wifiRow rfl

/-! ### C8: WIFI:/BEGIN:VCARD targets render literally, other targets
redirect -/

/-- C8: when the resolved target is a string starting with WIFI: or
BEGIN:VCARD, the scan route renders the target inside a pre element instead
of redirecting; any other non-empty string target of a redirect-mode Code
produces an HTTP redirect to exactly that target. -/
theorem scan_literal_or_redirect (db : DB) (slug : String) (req : ReqInfo) (fails : Bool)
    (qr : QRCodeRow) (s : String) (hfind : find_by_slug db slug = some qr)
    (ht : code_target qr = .str s) :
    ((pyStartswith s "WIFI:" = true ∨ pyStartswith s "BEGIN:VCARD" = true) →
      (scan db slug req fails).1 = .html ("<pre>" ++ s ++ "</pre>")) ∧
    (pyStartswith s "WIFI:" = false → pyStartswith s "BEGIN:VCARD" = false →
      s ≠ "" → qr.mode = "redirect" →
      (scan db slug req fails).1 = .redirect s) := by
  rw [scan_eq db slug req fails qr hfind, ht]
  dsimp only
  constructor
  · intro hpre
    have hcond : (pyStartswith s "WIFI:" || pyStartswith s "BEGIN:VCARD") = true := by
      rcases hpre with h | h <;> simp [h]
    rw [if_pos hcond]
  · intro h1 h2 h3 hmode
    have hempty : s.isEmpty = false := by
      cases he : s.isEmpty
      · rfl
      · exact absurd (by simpa [String.isEmpty_iff] using he) h3
    rw [if_neg (by simp [h1, h2]), if_neg (by rw [hmode]; decide)]
    simp [hempty]

/-- C8 witness: scanning the wifi Code renders the WIFI: descriptor literally
in a pre block. -/
theorem scan_literal_or_redirect_witness :
    (scan wifiDB "home-wifi" sampleReq false).1 =
      .html ("<pre>" ++ "WIFI:T:WPA;S:Home;P:secret;;" ++ "</pre>") :=
  (scan_literal_or_redirect wifiDB "home-wifi" sampleReq false wifiRow
      "WIFI:T:WPA;S:Home;P:secret;;" rfl wifi_target_format_witness).1
    (Or.inl (by decide))

/-! ### C10: URL-backed Codes with a missing or empty url redirect to "#" -/

/-- C10: a redirect-mode Code of a URL-backed type whose stored url is
absent, None or the empty string scans to an HTTP redirect whose location is
the literal string "#" — never an error and never an empty location. -/
theorem scan_missing_url_redirects_hash (db : DB) (slug : String) (req : ReqInfo)
    (fails : Bool) (qr : QRCodeRow) (hfind : find_by_slug db slug = some qr)
    (hmode : qr.mode = "redirect") (htype : qr.qr_type ∈ URL_TYPES)
    (hurl : qr.data_json.getD "url" .null = .null ∨
      qr.data_json.getD "url" .null = .str "") :
    (scan db slug req fails).1 = .redirect "#" := by
  have ht : code_target qr = qr.data_json.getD "url" .null := by
    simp only [code_target]
    rw [hmode, if_neg (by decide : ¬("redirect" : String) = "landing"), if_pos htype]
  rw [scan_eq db slug req fails qr hfind]
  rcases hurl with h | h <;> rw [ht, h] <;> dsimp only
  · rw [if_neg (by rw [hmode]; decide)]
    rfl
  · rw [if_neg (by decide : ¬(pyStartswith "" "WIFI:" || pyStartswith "" "BEGIN:VCARD") = true),
      if_neg (by rw [hmode]; decide)]
    rfl

/-- Redirect-mode website Code with a None url, used by the C10 witness. -/
def missingUrlRow : QRCodeRow :=
  ⟨7, 1, "Site", "site", "website", .obj [("url", .null)],
    "#000000", "#ffffff", none, "redirect"⟩

/-- Store holding the missing-url Code. -/
def missingUrlDB : DB := ⟨[missingUrlRow], [], 8⟩

/-- C10 witness: scanning the website Code whose stored url is None redirects
to "#". -/
theorem scan_missing_url_redirects_hash_witness :
    (scan missingUrlDB "site" sampleReq false).1 = .redirect "#" :=
  scan_missing_url_redirects_hash missingUrlDB "site" sampleReq false missingUrlRow
    rfl rfl (by decide) (Or.inl rfl)

/-! ### C9: unknown download formats fall back to PNG -/

/-- C9: for an existing slug and any format string whose lower-casing is not
svg, jpg, webp, pdf or eps (including strings outside the documented format
set, such as gif or txt), the download route does not fail: it returns the
PNG-encoded image with MIME type image/png, while the download filename keeps
the (lower-cased) requested format string as its extension. -/
theorem download_unknown_format_falls_back_to_png (db : DB) (slug fmt : String)
    (qr : QRCodeRow) (hfind : find_by_slug db slug = some qr)
    (hfmt : pyLower fmt ∉ (["svg", "jpg", "webp", "pdf", "eps"] : List String)) :
    download db slug fmt =
      .fileDownload
        (.raster (qr_png_pil (EXTERNAL_BASE ++ "/s/" ++ qr.slug) qr.fg qr.bg qr.logo_path) "PNG")
        "image/png" (qr.slug ++ "." ++ pyLower fmt) := by
  have h1 : ¬pyLower fmt = "svg" := fun h => hfmt (by simp [h])
  have h2 : ¬pyLower fmt = "jpg" := fun h => hfmt (by simp [h])
  have h3 : ¬pyLower fmt = "webp" := fun h => hfmt (by simp [h])
  have h4 : ¬pyLower fmt = "pdf" := fun h => hfmt (by simp [h])
  have h5 : ¬pyLower fmt = "eps" := fun h => hfmt (by simp [h])
  simp only [download, hfind, qr_bytes]
  rw [if_neg h1, if_neg h2, if_neg h3, if_neg h4, if_neg h5]

/-- C9 witness: downloading the wifi Code as .gif produces the PNG bytes with
MIME type image/png under the filename home-wifi.gif. -/
theorem download_unknown_format_falls_back_to_png_witness :
    download wifiDB "home-wifi" "gif" =
      .fileDownload
        (.raster (qr_png_pil "http://localhost/s/home-wifi" "#000000" "#ffffff" none) "PNG")
        "image/png" "home-wifi.gif" :=
  download_unknown_format_falls_back_to_png wifiDB "home-wifi" "gif" wifiRow rfl (by decide)

/-! ### C7: a disallowed upload extension escapes the ValidationError
handler -/

/-- The form of the C7 failing input: a website Code named My QR with no
optional fields supplied. -/
def badUploadForm : CreateForm :=
  ⟨"My QR", "website", none, none, none, none, none, none, none, none, none,
    none, none, none, none, none, none, none, none⟩

/-- The files of the C7 failing input: a generic upload named notes.xyz,
whose extension xyz is in no allowed-extension set. -/
def badUploadFiles : CreateFiles :=
  ⟨some ⟨"notes.xyz"⟩, [], none⟩

/-- Token values consumed by the C7 failing input. -/
def badUploadToks : TokenSupply :=
  ⟨"aabbccddeeff0011", [], "2233445566778899", "aabbcc"⟩

/-- C7: submitting the create form with an upload whose extension is
disallowed makes save_upload raise ValueError, and because that call sits
before (outside) the try/except that wraps only payload_for, the exception
escapes the route uncaught (an HTTP 500), instead of being flashed and
re-rendered as the spec requires; no Code is persisted on this path. -/
theorem create_unsupported_extension_escapes_uncaught :
    create emptyDB badUploadForm badUploadFiles badUploadToks =
      .error "Unsupported file type: .xyz" := rfl

end OnePlaceQR
